import Mathlib

/-!
Verification of the instagram-agent-v2 tool adapters.

This file gives a shallow embedding of the repository:

* `src/tools/social_media_mcp/TwitterSearchTool.py`
* `src/tools/social_media_mcp/TwitterSearchLiteTool.py`
* `src/tools/social_media_mcp/YouTubeSearchTool.py`
* `src/tools/marketing_mcp/MarketingAnalysisTool.py`
* `src/tools/analytics_mcp/DataVisualizationTool.py`
* `src/tools/GetSecretWordTool.py`
* `src/server/start_mcp.py`

Conventions of the embedding:

* Each `run` method becomes a pure function.  Ambient effects are passed
  explicitly: the credential environment variable is an `Option String`,
  the wall clock reading is a `String` parameter, and the behaviour of the
  external provider (the parsed HTTP response, or the exception the client
  library raised) is an input of an explicit outcome type.
* Python dictionaries destined for `json.dumps` become values of a small
  JSON syntax tree `Json`; the claims about the output envelope are stated
  as facts about the keys of that tree.
* Python `list.sort(key=..., reverse=True)` is a stable sort; it is
  modelled by `List.insertionSort` with the corresponding total preorder
  (any two stable sorts under the same preorder agree pointwise).
* Python `%` on `int` is floor division remainder; for the positive
  modulus `2` it coincides with `Int.emod`, which is Lean `%` on `Int`.
-/

/-- A JSON value, as produced by `json.dumps` on the dictionaries the tools
build.  Only the constructors the repository actually uses are modelled. -/
inductive Json where
  | jnull : Json
  | jbool : Bool → Json
  | jnum : Int → Json
  | jstr : String → Json
  | jarr : List Json → Json
  | jobj : List (String × Json) → Json

/-- Does a JSON object have a top-level field named `k`? -/
def Json.hasKey : Json → String → Bool
  | .jobj fields, k => fields.any (fun p => p.1 == k)
  | _, _ => false

/-- Look up a top-level field of a JSON object. -/
def Json.getKey : Json → String → Option Json
  | .jobj fields, k => (fields.find? (fun p => p.1 == k)).map (fun p => p.2)
  | _, _ => none

/-- Maps `None`-or-int to `null`-or-number (Python `json.dumps`). -/
def optIntJson : Option Int → Json
  | none => Json.jnull
  | some n => Json.jnum n

/-- Maps `None`-or-string to `null`-or-string (Python `json.dumps`). -/
def optStrJson : Option String → Json
  | none => Json.jnull
  | some s => Json.jstr s

/-- Python `s[:n]` on a string: the first `n` characters. -/
def strTake (s : String) (n : Nat) : String :=
  String.mk (s.toList.take n)

/-- Python `s.strip()`: drop whitespace from both ends. -/
def pyStrip (s : String) : String :=
  String.mk (((s.toList.dropWhile Char.isWhitespace).reverse.dropWhile
    Char.isWhitespace).reverse)

/-- Python `pat in s`: substring test. -/
def strHasSub (s pat : String) : Bool :=
  decide (pat.toList <:+: s.toList)

/-- Stable descending sort by a natural-number key, the meaning of Python
`list.sort(key=..., reverse=True)` (Timsort is stable, and stable sorts
under the same total preorder coincide). -/
def sortDescBy {α : Type} (key : α → Nat) (l : List α) : List α :=
  List.insertionSort (fun a b => key b ≤ key a) l

/-- Lexicographic comparison of character lists by code point: the
ordering Python uses to compare strings. -/
def charListLe : List Char → List Char → Bool
  | [], _ => true
  | _ :: _, [] => false
  | a :: as, b :: bs =>
      if a.toNat < b.toNat then true
      else if b.toNat < a.toNat then false
      else charListLe as bs

/-- Python string comparison `a <= b`. -/
def strLe (a b : String) : Bool :=
  charListLe a.toList b.toList

/-- Stable ascending sort of `(name, value)` members by name: the meaning
of Python `inspect.getmembers`, which returns members sorted by name. -/
def sortByName {α : Type} (name : α → String) (l : List α) : List α :=
  List.insertionSort (fun a b => strLe (name a) (name b) = true) l

/-! ### TwitterSearchTool (src/tools/social_media_mcp/TwitterSearchTool.py) -/

/-- The `public_metrics` sub-object of a tweet from the provider response. -/
structure PublicMetrics where
  like_count : Nat
  retweet_count : Nat
  reply_count : Nat
  quote_count : Nat
deriving DecidableEq

/-- One entry of `tweets_data` as built by `_search_tweets`: the fields the
tool extracts from the provider response. -/
structure RawTweet where
  id : Nat
  text : String
  authorId : Nat
  authorUsername : String
  authorName : String
  created_at : Option String
  metrics : PublicMetrics
deriving DecidableEq

/-- One entry of `processed_tweets` as built by `_process_tweets`. -/
structure ProcessedTweet where
  id : String
  text : String
  authorId : Nat
  authorUsername : String
  authorName : String
  url : String
  created_at : Option String
  likes : Nat
  retweets : Nat
  replies : Nat
  quotes : Nat
  total_engagement : Nat
deriving DecidableEq

/-- The per-tweet body of `_process_tweets`: extract the four public
counters, derive `total_engagement` as their sum, and build the URL. -/
def processOneTweet (t : RawTweet) : ProcessedTweet :=
  { id := toString t.id
    text := t.text
    authorId := t.authorId
    authorUsername := t.authorUsername
    authorName := t.authorName
    url := "https://x.com/" ++ t.authorUsername ++ "/status/" ++ toString t.id
    created_at := t.created_at
    likes := t.metrics.like_count
    retweets := t.metrics.retweet_count
    replies := t.metrics.reply_count
    quotes := t.metrics.quote_count
    total_engagement :=
      t.metrics.like_count + t.metrics.retweet_count +
        t.metrics.reply_count + t.metrics.quote_count }

/-- Model of `TwitterSearchTool._process_tweets`: map, then stable sort by
`total_engagement` descending. -/
def processTweets (tweets_data : List RawTweet) : List ProcessedTweet :=
  sortDescBy (fun t => t.total_engagement) (tweets_data.map processOneTweet)

/-- Step 8 of `run`: `if self.min_engagement_threshold:` — the filter is
applied only when the threshold is truthy (neither `None` nor `0`). -/
def applyThreshold {α : Type} (key : α → Nat) (thr : Option Int) (l : List α) : List α :=
  match thr with
  | none => l
  | some t => if t = 0 then l else l.filter (fun x => decide (t ≤ (key x : Int)))

/-- Model of `TwitterSearchTool._validate_inputs`: returns the message of the
`ValueError` raised, or `none` when validation passes. -/
def twitterValidate (q : String) (maxResults : Int) (thr : Option Int) : Option String :=
  if pyStrip q = "" then some "topic_or_keywords cannot be empty"
  else if q.length > 512 then
    some "topic_or_keywords must be under 512 characters for Basic API access"
  else if ¬ (10 ≤ maxResults ∧ maxResults ≤ 100) then
    some "max_results must be between 10 and 100"
  else match thr with
    | some t => if t < 0 then some "min_engagement_threshold must be a positive integer" else none
    | none => none

/-- Model of `TwitterSearchTool._enhance_query`: unconditionally append the language
filter and the retweet exclusion, then fall back to the language filter
alone, then to the raw query, whenever the result would exceed 512
characters. -/
def enhanceQuery (q : String) : String :=
  let enhanced := q ++ " lang:en -is:retweet"
  if enhanced.length > 512 then
    let withLang := q ++ " lang:en"
    if withLang.length > 512 then q else withLang
  else enhanced

/-- How the network stage of `TwitterSearchTool.run` can behave.
`_search_tweets` catches every exception internally (printing and
returning the empty list), so `resp` is the normal case; the remaining
constructors model the `tweepy.TooManyRequests`, `tweepy.Unauthorized`
and generic handlers of `run`, reachable from the other statements of the
`try` block. -/
inductive TwitterNet where
  | resp : List RawTweet → TwitterNet
  | tooMany : String → TwitterNet
  | unauthorized : TwitterNet
  | exn : String → TwitterNet

/-- The outcome of `TwitterSearchTool.run`, one constructor per `return`
site, holding exactly the data the corresponding dictionary literal
serializes. -/
inductive TwitterResult where
  | ok : String → String → String → Option Int → List ProcessedTweet → TwitterResult
  | errNoToken : String → TwitterResult
  | errRateLimit : String → String → String → Option Int → String → TwitterResult
  | errUnauthorized : String → TwitterResult
  | errGeneric : String → String → String → Option Int → String → TwitterResult

/-- The tweet list of the output (empty on every error path). -/
def TwitterResult.tweets : TwitterResult → List ProcessedTweet
  | .ok _ _ _ _ ts => ts
  | _ => []

/-- Replace the stored engagement threshold (the only place the threshold
appears outside the filter step is the `search_metadata` block). -/
def TwitterResult.setThr : TwitterResult → Option Int → TwitterResult
  | .ok q e t _ ts, thr => .ok q e t thr ts
  | .errNoToken q, _ => .errNoToken q
  | .errRateLimit q i t _ e, thr => .errRateLimit q i t thr e
  | .errUnauthorized q, _ => .errUnauthorized q
  | .errGeneric q m t _ e, thr => .errGeneric q m t thr e

/-- The JSON the tool serializes for each tweet. -/
def ProcessedTweet.toJson (t : ProcessedTweet) : Json :=
  Json.jobj
    [("id", Json.jstr t.id),
     ("text", Json.jstr t.text),
     ("author", Json.jobj
        [("id", Json.jnum t.authorId),
         ("username", Json.jstr t.authorUsername),
         ("name", Json.jstr t.authorName)]),
     ("url", Json.jstr t.url),
     ("created_at", optStrJson t.created_at),
     ("engagement_metrics", Json.jobj
        [("likes", Json.jnum t.likes),
         ("retweets", Json.jnum t.retweets),
         ("replies", Json.jnum t.replies),
         ("quotes", Json.jnum t.quotes),
         ("total_engagement", Json.jnum t.total_engagement)])]

/-- The `search_metadata` block of `TwitterSearchTool`. -/
def twitterMetadata (time enhanced : String) (thr : Option Int) : Json :=
  Json.jobj
    [("search_time", Json.jstr time),
     ("time_range", Json.jstr "last_6.5_days"),
     ("enhanced_query", Json.jstr enhanced),
     ("engagement_threshold", optIntJson thr)]

/-- The JSON envelope of each `return` site of `TwitterSearchTool.run`,
field for field as in the dictionary literals of the source. -/
def TwitterResult.toJson : TwitterResult → Json
  | .ok q enhanced time thr ts =>
      Json.jobj
        [("query", Json.jstr q),
         ("total_results", Json.jnum ts.length),
         ("search_metadata", twitterMetadata time enhanced thr),
         ("tweets", Json.jarr (ts.map ProcessedTweet.toJson))]
  | .errNoToken q =>
      Json.jobj
        [("error", Json.jstr "Twitter Bearer Token not found. Please set TWITTER_BEARER_TOKEN in your .env file."),
         ("query", Json.jstr q),
         ("total_results", Json.jnum 0),
         ("tweets", Json.jarr [])]
  | .errRateLimit q info time thr enhanced =>
      Json.jobj
        [("error", Json.jstr "Twitter API rate limit exceeded. Please wait 15 minutes before trying again."),
         ("rate_limit_info", Json.jstr info),
         ("query", Json.jstr q),
         ("search_metadata", twitterMetadata time enhanced thr),
         ("total_results", Json.jnum 0),
         ("tweets", Json.jarr [])]
  | .errUnauthorized q =>
      Json.jobj
        [("error", Json.jstr "Twitter API authentication failed. Please check your Bearer Token."),
         ("query", Json.jstr q),
         ("total_results", Json.jnum 0),
         ("tweets", Json.jarr [])]
  | .errGeneric q msg time thr enhanced =>
      Json.jobj
        [("error", Json.jstr msg),
         ("query", Json.jstr q),
         ("search_metadata", twitterMetadata time enhanced thr),
         ("total_results", Json.jnum 0),
         ("tweets", Json.jarr [])]

/-- Model of `TwitterSearchTool.run`.  Returns the structured outcome together with
a flag recording whether control reached the network stage (step 6).
Validation errors are `ValueError`s caught by the generic handler. -/
def twitterRun (q : String) (maxResults : Int) (thr : Option Int)
    (bearer : Option String) (net : TwitterNet) (now : String) :
    TwitterResult × Bool :=
  match twitterValidate q maxResults thr with
  | some msg =>
      (.errGeneric q ("An error occurred: " ++ msg) now thr (enhanceQuery q), false)
  | none =>
    match bearer with
    | none => (.errNoToken q, false)
    | some _ =>
      match net with
      | .resp raw =>
          let processed := processTweets raw
          let filtered := applyThreshold (fun t => t.total_engagement) thr processed
          let finalTweets := filtered.take maxResults.toNat
          (.ok q (enhanceQuery q) now thr finalTweets, true)
      | .tooMany info =>
          (.errRateLimit q info now thr (enhanceQuery q), true)
      | .unauthorized => (.errUnauthorized q, true)
      | .exn msg =>
          (.errGeneric q ("An error occurred: " ++ msg) now thr (enhanceQuery q), true)

/-! ### TwitterSearchLiteTool (src/tools/social_media_mcp/TwitterSearchLiteTool.py) -/

/-- One entry of `tweets_data` as built by `_search_tweets_lite` (no user
expansion: only the author id is kept). -/
structure RawTweetLite where
  id : Nat
  text : String
  authorId : Nat
  created_at : Option String
  metrics : PublicMetrics
deriving DecidableEq

/-- One entry of `processed_tweets` as built by `_process_tweets_lite`. -/
structure LiteTweet where
  id : String
  text : String
  author_id : String
  url : String
  created_at : Option String
  likes : Nat
  retweets : Nat
  replies : Nat
  quotes : Nat
  total_engagement : Nat
deriving DecidableEq

/-- The per-tweet body of `_process_tweets_lite`. -/
def processOneLite (t : RawTweetLite) : LiteTweet :=
  { id := toString t.id
    text := t.text
    author_id := toString t.authorId
    url := "https://x.com/i/status/" ++ toString t.id
    created_at := t.created_at
    likes := t.metrics.like_count
    retweets := t.metrics.retweet_count
    replies := t.metrics.reply_count
    quotes := t.metrics.quote_count
    total_engagement :=
      t.metrics.like_count + t.metrics.retweet_count +
        t.metrics.reply_count + t.metrics.quote_count }

/-- Model of `TwitterSearchLiteTool._process_tweets_lite`: map, then stable sort by
`total_engagement` descending. -/
def processTweetsLite (tweets_data : List RawTweetLite) : List LiteTweet :=
  sortDescBy (fun t => t.total_engagement) (tweets_data.map processOneLite)

/-- Model of `TwitterSearchLiteTool._validate_inputs` (note the order: empty check,
then the result-count range, then the 100-character limit). -/
def liteValidate (q : String) (maxResults : Int) : Option String :=
  if pyStrip q = "" then some "Topic or keywords cannot be empty"
  else if maxResults < 10 ∨ maxResults > 25 then
    some "max_results must be between 10 and 25 for lite version (API minimum is 10)"
  else if q.length > 100 then
    some "Query too long for lite version. Keep under 100 characters."
  else none

/-- The advanced-operator test of `_create_lite_query`. -/
def liteHasOperator (q : String) : Bool :=
  strHasSub q "lang:" || strHasSub q "-is:" || strHasSub q "from:" || strHasSub q "to:"

/-- Model of `TwitterSearchLiteTool._create_lite_query`: strip and truncate to 80
characters, then append the language filter only when no advanced
operator is already present.  There is no further length fallback. -/
def createLiteQuery (q : String) : String :=
  let q := strTake (pyStrip q) 80
  if ¬ liteHasOperator q then q ++ " lang:en" else q

/-- Network-stage behaviour for the lite tool (same shape as the full
tool: `_search_tweets_lite` swallows exceptions internally). -/
inductive LiteNet where
  | resp : List RawTweetLite → LiteNet
  | tooMany : LiteNet
  | unauthorized : LiteNet
  | exn : String → LiteNet

/-- The outcome of `TwitterSearchLiteTool.run`, one constructor per
`return` site.  In `ok`, the stored `Nat` is `quota_used`, the length of
the raw response (counted before filtering). -/
inductive LiteResult where
  | ok : String → String → String → Option Int → Nat → List LiteTweet → LiteResult
  | errNoToken : String → LiteResult
  | errRateLimit : String → String → String → Option Int → LiteResult
  | errUnauthorized : String → LiteResult
  | errGeneric : String → String → LiteResult

/-- The tweet list of the lite output (empty on every error path). -/
def LiteResult.tweets : LiteResult → List LiteTweet
  | .ok _ _ _ _ _ ts => ts
  | _ => []

/-- Replace the stored engagement threshold of a lite outcome. -/
def LiteResult.setThr : LiteResult → Option Int → LiteResult
  | .ok q t lq _ n ts, thr => .ok q t lq thr n ts
  | .errNoToken q, _ => .errNoToken q
  | .errRateLimit q t lq _, thr => .errRateLimit q t lq thr
  | .errUnauthorized q, _ => .errUnauthorized q
  | .errGeneric q m, _ => .errGeneric q m

/-- The JSON the lite tool serializes for each tweet. -/
def LiteTweet.toJson (t : LiteTweet) : Json :=
  Json.jobj
    [("id", Json.jstr t.id),
     ("text", Json.jstr t.text),
     ("author_id", Json.jstr t.author_id),
     ("url", Json.jstr t.url),
     ("created_at", optStrJson t.created_at),
     ("engagement_metrics", Json.jobj
        [("likes", Json.jnum t.likes),
         ("retweets", Json.jnum t.retweets),
         ("replies", Json.jnum t.replies),
         ("quotes", Json.jnum t.quotes),
         ("total_engagement", Json.jnum t.total_engagement)])]

/-- The JSON envelope of each `return` site of `TwitterSearchLiteTool.run`. -/
def LiteResult.toJson : LiteResult → Json
  | .ok q time liteQ thr quota ts =>
      Json.jobj
        [("query", Json.jstr q),
         ("quota_used", Json.jnum quota),
         ("total_results", Json.jnum ts.length),
         ("search_metadata", Json.jobj
            [("search_time", Json.jstr time),
             ("time_range", Json.jstr "last_3_days"),
             ("lite_query", Json.jstr liteQ),
             ("engagement_threshold", optIntJson thr),
             ("quota_warning", Json.jstr ("Used " ++ toString quota ++ " posts from your monthly quota"))]),
         ("tweets", Json.jarr (ts.map LiteTweet.toJson))]
  | .errNoToken q =>
      Json.jobj
        [("error", Json.jstr "Twitter Bearer Token not found. Please set TWITTER_BEARER_TOKEN in your .env file."),
         ("query", Json.jstr q),
         ("quota_used", Json.jnum 0),
         ("total_results", Json.jnum 0),
         ("tweets", Json.jarr [])]
  | .errRateLimit q time liteQ thr =>
      Json.jobj
        [("error", Json.jstr "Twitter API rate limit exceeded. Please wait 15 minutes before trying again."),
         ("rate_limit_info", Json.jstr "Your account may have very restrictive rate limits due to quota restrictions."),
         ("query", Json.jstr q),
         ("quota_used", Json.jnum 0),
         ("search_metadata", Json.jobj
            [("search_time", Json.jstr time),
             ("time_range", Json.jstr "last_3_days"),
             ("lite_query", Json.jstr liteQ),
             ("engagement_threshold", optIntJson thr)]),
         ("total_results", Json.jnum 0),
         ("tweets", Json.jarr [])]
  | .errUnauthorized q =>
      Json.jobj
        [("error", Json.jstr "Twitter API authentication failed. Please check your Bearer Token."),
         ("query", Json.jstr q),
         ("quota_used", Json.jnum 0),
         ("total_results", Json.jnum 0),
         ("tweets", Json.jarr [])]
  | .errGeneric q msg =>
      Json.jobj
        [("error", Json.jstr msg),
         ("query", Json.jstr q),
         ("quota_used", Json.jnum 0),
         ("total_results", Json.jnum 0),
         ("tweets", Json.jarr [])]

/-- Model of `TwitterSearchLiteTool.run`.  Note that, unlike the full tool, the
filtered list is returned without a final `[:max_results]` truncation;
the result count is bounded only through the `max_results` cap passed to
the provider request. -/
def liteRun (q : String) (maxResults : Int) (thr : Option Int)
    (bearer : Option String) (net : LiteNet) (now : String) :
    LiteResult × Bool :=
  match liteValidate q maxResults with
  | some msg => (.errGeneric q ("Unexpected error: " ++ msg), false)
  | none =>
    match bearer with
    | none => (.errNoToken q, false)
    | some _ =>
      match net with
      | .resp raw =>
          let processed := processTweetsLite raw
          let filtered := applyThreshold (fun t => t.total_engagement) thr processed
          (.ok q now (createLiteQuery q) thr raw.length filtered, true)
      | .tooMany =>
          (.errRateLimit q now (createLiteQuery q) thr, true)
      | .unauthorized => (.errUnauthorized q, true)
      | .exn msg => (.errGeneric q ("Unexpected error: " ++ msg), true)

/-! ### YouTubeSearchTool (src/tools/social_media_mcp/YouTubeSearchTool.py) -/

/-- One item of the `videos.list` response, after the `int(...)` parses of
`_process_video`.  `statsParse` records whether those parses succeed: a
non-numeric counter raises `ValueError`, which `_process_video` catches,
returning `None`, and the video is skipped. -/
structure RawVideo where
  id : String
  title : String
  description : String
  channelTitle : String
  publishedAt : String
  duration : String
  durationSeconds : Option Nat
  thumbMedium : Option String
  thumbDefault : Option String
  views : Nat
  likes : Nat
  comments : Nat
  statsParse : Bool
deriving DecidableEq

/-- One entry of `videos_data` as built by `_process_video`. -/
structure ProcessedVideo where
  id : String
  title : String
  description : String
  channel_title : String
  url : String
  published_at : String
  duration : String
  formatted_duration : String
  thumbnail_url : String
  views : Nat
  likes : Nat
  comments : Nat
  total_engagement : Nat
deriving DecidableEq

/-- Zero-pad to two digits, Python `f"...:02d"`. -/
def pad2 (n : Nat) : String :=
  if n < 10 then "0" ++ toString n else toString n

/-- Model of `YouTubeSearchTool._format_duration` on the seconds value the
`isodate` library parsed (`none` models a parse failure, in which case the
original string is returned unchanged). -/
def formatDuration (parsed : Option Nat) (original : String) : String :=
  if original = "" then "Unknown"
  else
    match parsed with
    | none => original
    | some totalSeconds =>
        let hours := totalSeconds / 3600
        let minutes := (totalSeconds % 3600) / 60
        let seconds := totalSeconds % 60
        if hours > 0 then
          toString hours ++ ":" ++ pad2 minutes ++ ":" ++ pad2 seconds
        else
          toString minutes ++ ":" ++ pad2 seconds

/-- Model of `YouTubeSearchTool._process_video`: derive `total_engagement` as
`views + likes + comments`; truncate long descriptions; pick the medium
thumbnail when present, else the default. -/
def processVideo (v : RawVideo) : Option ProcessedVideo :=
  if ¬ v.statsParse then none
  else some
    { id := v.id
      title := v.title
      description :=
        if v.description.length > 500 then strTake v.description 500 ++ "..."
        else v.description
      channel_title := v.channelTitle
      url := "https://www.youtube.com/watch?v=" ++ v.id
      published_at := v.publishedAt
      duration := v.duration
      formatted_duration := formatDuration v.durationSeconds v.duration
      thumbnail_url :=
        match v.thumbMedium with
        | some u => u
        | none => v.thumbDefault.getD ""
      views := v.views
      likes := v.likes
      comments := v.comments
      total_engagement := v.views + v.likes + v.comments }

/-- Model of `YouTubeSearchTool._sort_and_filter_videos`: filter first (here the
test is `is not None`, so a `0` threshold does filter), then stable sort
by `total_engagement` descending. -/
def sortAndFilterVideos (thr : Option Int) (videos : List ProcessedVideo) : List ProcessedVideo :=
  let filtered :=
    match thr with
    | none => videos
    | some t => videos.filter (fun v => decide (t ≤ (v.total_engagement : Int)))
  sortDescBy (fun v => v.total_engagement) filtered

/-- Behaviour of the YouTube network stage: the ids of the `search.list`
response together with the `videos.list` items, or an exception from
either request. -/
inductive YtNet where
  | ok : List String → List RawVideo → YtNet
  | httpError : String → YtNet
  | exn : String → YtNet

/-- The outcome of `YouTubeSearchTool.run`, one constructor per `return`
site.  In `ok`, the stored `Nat` is `quota_used` (100 for the search plus
one per video id). -/
inductive YtResult where
  | ok : String → String → Option Int → Nat → List ProcessedVideo → YtResult
  | emptySearch : String → String → Option Int → YtResult
  | errEmptyQuery : String → YtResult
  | errNoKey : String → YtResult
  | errHttp : String → String → YtResult
  | errGeneric : String → String → YtResult

/-- The video list of the output (empty on every error path and on the
empty-search path). -/
def YtResult.videos : YtResult → List ProcessedVideo
  | .ok _ _ _ _ vs => vs
  | _ => []

/-- The JSON the tool serializes for each video. -/
def ProcessedVideo.toJson (v : ProcessedVideo) : Json :=
  Json.jobj
    [("id", Json.jstr v.id),
     ("title", Json.jstr v.title),
     ("description", Json.jstr v.description),
     ("channel_title", Json.jstr v.channel_title),
     ("url", Json.jstr v.url),
     ("published_at", Json.jstr v.published_at),
     ("duration", Json.jstr v.duration),
     ("formatted_duration", Json.jstr v.formatted_duration),
     ("thumbnail_url", Json.jstr v.thumbnail_url),
     ("engagement_metrics", Json.jobj
        [("views", Json.jnum v.views),
         ("likes", Json.jnum v.likes),
         ("comments", Json.jnum v.comments),
         ("total_engagement", Json.jnum v.total_engagement)])]

/-- The JSON envelope of each `return` site of `YouTubeSearchTool.run`. -/
def YtResult.toJson : YtResult → Json
  | .ok q time thr quota vs =>
      Json.jobj
        [("query", Json.jstr q),
         ("total_results", Json.jnum vs.length),
         ("search_metadata", Json.jobj
            [("search_time", Json.jstr time),
             ("time_range", Json.jstr "last_week"),
             ("enhanced_query", Json.jstr q),
             ("engagement_threshold", optIntJson thr),
             ("quota_used", Json.jnum quota)]),
         ("videos", Json.jarr (vs.map ProcessedVideo.toJson))]
  | .emptySearch q time thr =>
      Json.jobj
        [("query", Json.jstr q),
         ("total_results", Json.jnum 0),
         ("search_metadata", Json.jobj
            [("search_time", Json.jstr time),
             ("time_range", Json.jstr "last_week"),
             ("enhanced_query", Json.jstr q),
             ("engagement_threshold", optIntJson thr),
             ("quota_used", Json.jnum 100)]),
         ("videos", Json.jarr [])]
  | .errEmptyQuery q =>
      Json.jobj
        [("error", Json.jstr "Topic or keywords cannot be empty"),
         ("query", Json.jstr q),
         ("total_results", Json.jnum 0),
         ("videos", Json.jarr [])]
  | .errNoKey q =>
      Json.jobj
        [("error", Json.jstr "YouTube API key not found in environment variables. Please set YOUTUBE_API_KEY."),
         ("query", Json.jstr q),
         ("total_results", Json.jnum 0),
         ("videos", Json.jarr [])]
  | .errHttp q msg =>
      Json.jobj
        [("error", Json.jstr msg),
         ("query", Json.jstr q),
         ("total_results", Json.jnum 0),
         ("videos", Json.jarr [])]
  | .errGeneric q msg =>
      Json.jobj
        [("error", Json.jstr msg),
         ("query", Json.jstr q),
         ("total_results", Json.jnum 0),
         ("videos", Json.jarr [])]

/-- Model of `YouTubeSearchTool.run`.  `max_results` and the threshold are range
checked by pydantic at construction time (10 to 50, and nonnegative), so
an instance that runs always satisfies those bounds; the only in-method
validation is the blank-query check. -/
def ytRun (q : String) (maxResults : Int) (thr : Option Int)
    (apiKey : Option String) (net : YtNet) (now : String) :
    YtResult × Bool :=
  if pyStrip q = "" then (.errEmptyQuery q, false)
  else
    match apiKey with
    | none => (.errNoKey q, false)
    | some _ =>
      match net with
      | .ok ids items =>
          if ids.isEmpty then (.emptySearch q now thr, true)
          else
            let videosData := items.filterMap processVideo
            let ranked := sortAndFilterVideos thr videosData
            let finalVideos := ranked.take maxResults.toNat
            (.ok q now thr (100 + ids.length) finalVideos, true)
      | .httpError msg => (.errHttp q ("YouTube API error: " ++ msg), true)
      | .exn msg => (.errGeneric q ("Unexpected error: " ++ msg), true)

/-! ### Mock and report tools -/

/-- Model of `GetSecretWordTool.run` (src/tools/GetSecretWordTool.py).  Python `%`
with the positive modulus `2` agrees with `Int.emod`, which is `%` on
`Int` in Lean.  The method is total: it never raises. -/
def getSecretWordRun (seed : Int) : String :=
  if seed % 2 = 0 then "Strawberry" else "Apple"

/-- Model of `MarketingAnalysisTool.run` (src/tools/marketing_mcp/MarketingAnalysisTool.py):
a plain interpolated string, not passed through `json.dumps`. -/
def marketingAnalysisRun (campaignId timePeriod : String) : String :=
  if campaignId = "demo" then
    "Marketing analysis for campaign " ++ campaignId ++ " over " ++ timePeriod ++ ":\n" ++
      "- Click-through rate: 2.8%\n" ++
      "- Conversion rate: 1.5%\n" ++
      "- ROI: 3.2x\n" ++
      "- Top performing channel: Social Media"
  else
    "Analysis for campaign " ++ campaignId ++ " over " ++ timePeriod ++ ":\n" ++
      "Campaign data not found or insufficient data for analysis."

/-- Model of `DataVisualizationTool.run` (src/tools/analytics_mcp/DataVisualizationTool.py):
`json.dumps` of the `mock_data` dictionary.  `envInstance` is the
`MCP_INSTANCE_NAME` environment variable. -/
def dataVisualizationRun (dataSource chartType timeRange : String)
    (envInstance : Option String) : Json :=
  Json.jobj
    [("chart_type", Json.jstr chartType),
     ("data_source", Json.jstr dataSource),
     ("time_range", Json.jstr timeRange),
     ("instance", Json.jstr (envInstance.getD "default")),
     ("mock_visualization", Json.jstr
        ("[Visualization of " ++ dataSource ++ " data as a " ++ chartType ++
          " chart over " ++ timeRange ++ " intervals]"))]

/-! ### Tool loader and server entry point (src/server/start_mcp.py) -/

/-- A class member of an imported module, as seen by the loader: its name,
whether `issubclass(obj, BaseTool)` holds, and whether
`obj.__module__ == module.__name__` (defined in this module, not
imported). -/
structure PyClass where
  name : String
  isToolSubclass : Bool
  definedInModule : Bool
deriving DecidableEq

/-- The result of `spec.loader.exec_module`: the class members of the
module in declaration order, or the import-time exception, which the
loader catches, logs and skips. -/
inductive FileLoad where
  | ok : List PyClass → FileLoad
  | err : String → FileLoad
deriving DecidableEq

/-- A source file of a scanned directory. -/
structure PyFile where
  fname : String
  load : FileLoad
deriving DecidableEq

/-- The membership condition of the loader:
`issubclass(obj, BaseTool) and obj.__module__ == module.__name__`. -/
def qualifiesAsTool (c : PyClass) : Bool :=
  c.isToolSubclass && c.definedInModule

/-- The file-name condition of the scan:
`f.endswith(".py") and not f.startswith("__")`. -/
def scannedFile (f : PyFile) : Bool :=
  f.fname.endsWith ".py" && !(f.fname.startsWith "__")

/-- The tool classes the loader collects from one file:
`inspect.getmembers` returns the members sorted by name, and the loader
appends the qualifying ones in that order.  A file whose import raised
contributes nothing. -/
def toolsOfFile (f : PyFile) : List PyClass :=
  match f.load with
  | .err _ => []
  | .ok classes => (sortByName PyClass.name classes).filter qualifiesAsTool

/-- The class members of a file in declaration order (empty for a file
whose import raised). -/
def declaredClasses (f : PyFile) : List PyClass :=
  match f.load with
  | .err _ => []
  | .ok classes => classes

/-- Model of `load_tools_from_directory`: scan the files in directory-listing
order, skipping non-Python and underscore-prefixed names, and concatenate
the tool classes of each scanned file. -/
def loadToolsFromDirectory (files : List PyFile) : List PyClass :=
  ((files.filter scannedFile).map toolsOfFile).flatten

/-- What the `__main__` block (and `setup_uvicorn_app`) does after the
two scans. -/
inductive ServerOutcome where
  | exited : Nat → String → ServerOutcome
  | serving : List PyClass → ServerOutcome
deriving DecidableEq

/-- Model of `all_tools = base_tools + specified_tools`: the scan of the base
tools directory (parent level only) concatenated with the scan of the
configured directory when it differs from the base and exists (`none`
models either condition failing, in which case `specified_tools` stays
empty). -/
def combinedTools (baseFiles : List PyFile) (specFiles : Option (List PyFile)) :
    List PyClass :=
  loadToolsFromDirectory baseFiles ++
    match specFiles with
    | none => []
    | some fs => loadToolsFromDirectory fs

/-- The tail of the `__main__` block of `start_mcp.py` (and of
`setup_uvicorn_app`): exit with status 1 and a diagnostic when the
combined collection is empty; otherwise start the server with the tools. -/
def startServer (baseFiles : List PyFile) (specFiles : Option (List PyFile)) :
    ServerOutcome :=
  let allTools := combinedTools baseFiles specFiles
  if allTools.isEmpty then
    .exited 1 "Error: No tools found in the specified directories"
  else
    .serving allTools

/-- A concrete source file for exercising the loader: a module declaring
the tool class `Zebra` first and the tool class `Apple` second. -/
def zebraAppleFile : PyFile :=
  { fname := "DemoTools.py"
    load := FileLoad.ok
      [{ name := "Zebra", isToolSubclass := true, definedInModule := true },
       { name := "Apple", isToolSubclass := true, definedInModule := true }] }

/-! ### Helper lemmas about the sorting and filtering pipeline -/

theorem sortDescBy_sorted {α : Type} (key : α → Nat) (l : List α) :
    (sortDescBy key l).Pairwise (fun a b => key b ≤ key a) := by
  letI : IsTotal α (fun a b => key b ≤ key a) := ⟨fun a b => le_total (key b) (key a)⟩
  letI : IsTrans α (fun a b => key b ≤ key a) :=
    ⟨fun _ _ _ hab hbc => le_trans hbc hab⟩
  exact List.sorted_insertionSort _ l

theorem sortDescBy_perm {α : Type} (key : α → Nat) (l : List α) :
    (sortDescBy key l).Perm l :=
  List.perm_insertionSort _ l

theorem length_sortDescBy {α : Type} (key : α → Nat) (l : List α) :
    (sortDescBy key l).length = l.length :=
  (sortDescBy_perm key l).length_eq

theorem mem_sortDescBy {α : Type} {key : α → Nat} {l : List α} {x : α} :
    x ∈ sortDescBy key l ↔ x ∈ l :=
  (sortDescBy_perm key l).mem_iff

theorem charListLe_total : ∀ a b : List Char, charListLe a b = true ∨ charListLe b a = true := by
  intro a
  induction a with
  | nil => intro b; left; rfl
  | cons x xs ih =>
    intro b
    cases b with
    | nil => right; rfl
    | cons y ys =>
      simp only [charListLe]
      rcases Nat.lt_trichotomy x.toNat y.toNat with h | h | h
      · left
        simp [h]
      · have h1 : ¬ x.toNat < y.toNat := by omega
        have h2 : ¬ y.toNat < x.toNat := by omega
        simpa [h1, h2] using ih ys
      · right
        simp [h]

theorem charListLe_trans :
    ∀ a b c : List Char, charListLe a b = true → charListLe b c = true →
      charListLe a c = true := by
  intro a
  induction a with
  | nil => intro b c _ _; rfl
  | cons x xs ih =>
    intro b c hab hbc
    cases b with
    | nil => simp [charListLe] at hab
    | cons y ys =>
      cases c with
      | nil => simp [charListLe] at hbc
      | cons z zs =>
        simp only [charListLe] at hab hbc ⊢
        by_cases hxy : x.toNat < y.toNat
        · by_cases hyz : y.toNat < z.toNat
          · have hxz : x.toNat < z.toNat := lt_trans hxy hyz
            simp [hxz]
          · by_cases hzy : z.toNat < y.toNat
            · simp [hyz, hzy] at hbc
            · have hxz : x.toNat < z.toNat := by omega
              simp [hxz]
        · by_cases hyx : y.toNat < x.toNat
          · simp [hxy, hyx] at hab
          · simp [hxy, hyx] at hab
            by_cases hyz : y.toNat < z.toNat
            · have hxz : x.toNat < z.toNat := by omega
              simp [hxz]
            · by_cases hzy : z.toNat < y.toNat
              · simp [hyz, hzy] at hbc
              · simp [hyz, hzy] at hbc
                have h1 : ¬ x.toNat < z.toNat := by omega
                have h2 : ¬ z.toNat < x.toNat := by omega
                simp [h1, h2]
                exact ih ys zs hab hbc

theorem sortByName_sorted {α : Type} (name : α → String) (l : List α) :
    (sortByName name l).Pairwise (fun a b => strLe (name a) (name b) = true) := by
  letI : IsTotal α (fun a b => strLe (name a) (name b) = true) :=
    ⟨fun a b => charListLe_total (name a).toList (name b).toList⟩
  letI : IsTrans α (fun a b => strLe (name a) (name b) = true) :=
    ⟨fun a b c hab hbc => charListLe_trans _ _ _ hab hbc⟩
  exact List.sorted_insertionSort _ l

theorem sortByName_perm {α : Type} (name : α → String) (l : List α) :
    (sortByName name l).Perm l :=
  List.perm_insertionSort _ l

theorem applyThreshold_sublist {α : Type} (key : α → Nat) (thr : Option Int) (l : List α) :
    (applyThreshold key thr l).Sublist l := by
  cases thr with
  | none => exact List.Sublist.refl l
  | some t =>
    by_cases ht : t = 0
    · simp [applyThreshold, ht]
    · simp only [applyThreshold, if_neg ht]
      exact List.filter_sublist l

theorem length_applyThreshold_le {α : Type} (key : α → Nat) (thr : Option Int) (l : List α) :
    (applyThreshold key thr l).length ≤ l.length :=
  (applyThreshold_sublist key thr l).length_le

theorem mem_applyThreshold_le {α : Type} (key : α → Nat) (t : Int) {l : List α} {x : α}
    (hx : x ∈ applyThreshold key (some t) l) : t ≤ (key x : Int) := by
  by_cases ht : t = 0
  · subst ht
    exact Int.natCast_nonneg (key x)
  · simp only [applyThreshold, if_neg ht, List.mem_filter, decide_eq_true_eq] at hx
    exact hx.2

theorem pairwise_applyThreshold {α : Type} (key : α → Nat) (thr : Option Int) {l : List α}
    (hl : l.Pairwise (fun a b => key b ≤ key a)) :
    (applyThreshold key thr l).Pairwise (fun a b => key b ≤ key a) :=
  hl.sublist (applyThreshold_sublist key thr l)

theorem pairwise_take {α : Type} {R : α → α → Prop} {l : List α} (n : Nat)
    (hl : l.Pairwise R) : (l.take n).Pairwise R :=
  hl.sublist (List.take_sublist n l)

/-! ### Claim theorems -/

/-- C10: For every integer seed, `GetSecretWordTool.run` deterministically
returns the string `"Strawberry"` if the seed is even and `"Apple"` if the
seed is odd (and, being a total function of the seed, it never raises). -/
theorem claim10_secret_word_parity (seed : Int) :
    (Even seed → getSecretWordRun seed = "Strawberry") ∧
    (Odd seed → getSecretWordRun seed = "Apple") := by
  constructor
  · intro h
    simp [getSecretWordRun, Int.even_iff.mp h]
  · intro h
    simp [getSecretWordRun, Int.odd_iff.mp h]

/-- Witness for C10 at the even seed 4 and the odd seed 7 (also at the
negative odd seed, where Python floor remainder gives 1). -/
theorem claim10_secret_word_parity_witness :
    getSecretWordRun 4 = "Strawberry" ∧ getSecretWordRun 7 = "Apple" ∧
    getSecretWordRun (-3) = "Apple" :=
  ⟨(claim10_secret_word_parity 4).1 ⟨2, by decide⟩,
   (claim10_secret_word_parity 7).2 ⟨3, by decide⟩,
   (claim10_secret_word_parity (-3)).2 ⟨-2, by decide⟩⟩

/-- C7: If the combined tool collection produced by scanning the base
tools directory (non-recursively) and the optional second directory is
empty, the hosting process prints the diagnostic and exits with status 1;
it never proceeds to serve with zero tools. -/
theorem claim7_zero_tools_exit (baseFiles : List PyFile)
    (specFiles : Option (List PyFile)) :
    (combinedTools baseFiles specFiles = [] →
      startServer baseFiles specFiles =
        ServerOutcome.exited 1 "Error: No tools found in the specified directories") ∧
    (∀ tools, startServer baseFiles specFiles = ServerOutcome.serving tools →
      tools ≠ []) := by
  constructor
  · intro h
    simp [startServer, h]
  · intro tools hserve
    unfold startServer at hserve
    by_cases h : (combinedTools baseFiles specFiles).isEmpty
    · simp [h] at hserve
    · simp [h] at hserve
      intro hnil
      rw [hnil] at hserve
      simp [List.isEmpty_iff] at h
      exact h hserve

/-- Witness for C7: an empty base directory and no second directory exit
with status 1 and the diagnostic. -/
theorem claim7_zero_tools_exit_witness :
    startServer [] none =
      ServerOutcome.exited 1 "Error: No tools found in the specified directories" :=
  (claim7_zero_tools_exit [] none).1 rfl

/-- Counterexample to C8: a file declaring the tool class `Zebra` before
the tool class `Apple` is loaded as `[Apple, Zebra]` —
`inspect.getmembers` returns members sorted by name, so the loader does
not preserve within-file declaration order. -/
theorem claim8_counterexample_alphabetical_not_declaration_order :
    toolsOfFile zebraAppleFile =
      [{ name := "Apple", isToolSubclass := true, definedInModule := true },
       { name := "Zebra", isToolSubclass := true, definedInModule := true }] ∧
    (declaredClasses zebraAppleFile).filter qualifiesAsTool =
      [{ name := "Zebra", isToolSubclass := true, definedInModule := true },
       { name := "Apple", isToolSubclass := true, definedInModule := true }] ∧
    toolsOfFile zebraAppleFile ≠
      (declaredClasses zebraAppleFile).filter qualifiesAsTool := by
  refine ⟨by decide, by decide, by decide⟩

/-- C8 (amended): for every scanned source file, the loader appends the
qualifying tool classes of that file in ascending alphabetical order of
their class names (the order of `inspect.getmembers`), and those classes
are exactly the qualifying classes the file declares, up to that
reordering; no ordering is guaranteed across files. -/
theorem claim8_amended_alphabetical_order_per_file (f : PyFile) :
    (toolsOfFile f).Pairwise (fun a b => strLe a.name b.name = true) ∧
    (toolsOfFile f).Perm ((declaredClasses f).filter qualifiesAsTool) := by
  cases hload : f.load with
  | err msg =>
    simp [toolsOfFile, declaredClasses, hload]
  | ok classes =>
    constructor
    · simp only [toolsOfFile, hload]
      exact (sortByName_sorted PyClass.name classes).sublist (List.filter_sublist _)
    · simp only [toolsOfFile, declaredClasses, hload]
      exact (sortByName_perm PyClass.name classes).filter qualifiesAsTool

/-- C9: with every provider response held fixed, running either Twitter
tool with `min_engagement_threshold = 0` produces the same outcome as
running it with the threshold absent, except for the stored
`engagement_threshold` metadata value: the truthiness test treats 0 like
`None`, the filter step is skipped, and the ranked tweet list, the
`total_results` count and the network behaviour coincide. -/
theorem claim9_zero_threshold_equals_none (q : String) (maxResults : Int)
    (bearer : Option String) (net : TwitterNet) (netL : LiteNet) (now : String) :
    (twitterRun q maxResults (some 0) bearer net now).1 =
      ((twitterRun q maxResults none bearer net now).1).setThr (some 0) ∧
    (twitterRun q maxResults (some 0) bearer net now).2 =
      (twitterRun q maxResults none bearer net now).2 ∧
    (twitterRun q maxResults (some 0) bearer net now).1.tweets =
      (twitterRun q maxResults none bearer net now).1.tweets ∧
    (liteRun q maxResults (some 0) bearer netL now).1 =
      ((liteRun q maxResults none bearer netL now).1).setThr (some 0) ∧
    (liteRun q maxResults (some 0) bearer netL now).2 =
      (liteRun q maxResults none bearer netL now).2 ∧
    (liteRun q maxResults (some 0) bearer netL now).1.tweets =
      (liteRun q maxResults none bearer netL now).1.tweets := by
  have hval : twitterValidate q maxResults (some 0) = twitterValidate q maxResults none := by
    simp [twitterValidate]
  have happ : ∀ {α : Type} (key : α → Nat) (l : List α),
      applyThreshold key (some 0) l = applyThreshold key none l := by
    intro α key l
    simp [applyThreshold]
  refine ⟨?_, ?_, ?_, ?_, ?_, ?_⟩ <;>
    · simp only [twitterRun, liteRun, hval, happ]
      cases twitterValidate q maxResults none <;>
        cases liteValidate q maxResults <;>
          cases bearer <;>
            cases net <;>
              cases netL <;>
                simp [TwitterResult.setThr, TwitterResult.tweets,
                  LiteResult.setThr, LiteResult.tweets]

theorem twitterEnvelope_keys (r : TwitterResult) :
    r.toJson.hasKey "query" = true ∧ r.toJson.hasKey "total_results" = true ∧
      r.toJson.hasKey "tweets" = true := by
  cases r <;> exact ⟨rfl, rfl, rfl⟩

theorem liteEnvelope_keys (r : LiteResult) :
    r.toJson.hasKey "query" = true ∧ r.toJson.hasKey "total_results" = true ∧
      r.toJson.hasKey "tweets" = true := by
  cases r <;> exact ⟨rfl, rfl, rfl⟩

theorem ytEnvelope_keys (r : YtResult) :
    r.toJson.hasKey "query" = true ∧ r.toJson.hasKey "total_results" = true ∧
      r.toJson.hasKey "videos" = true := by
  cases r <;> exact ⟨rfl, rfl, rfl⟩

/-- Counterexample to C3: `DataVisualizationTool` is a tool of the
repository, yet its output (the `mock_data` JSON object) carries none of
the envelope fields — no `total_results`, no `query`, no `topic`, and no
items list — so the stable-envelope invariant does not hold for every
tool in the repository. -/
theorem claim3_counterexample_datavisualization_missing_envelope :
    (dataVisualizationRun "sales" "bar" "weekly" none).hasKey "total_results" = false ∧
    (dataVisualizationRun "sales" "bar" "weekly" none).hasKey "query" = false ∧
    (dataVisualizationRun "sales" "bar" "weekly" none).hasKey "topic" = false ∧
    (dataVisualizationRun "sales" "bar" "weekly" none).hasKey "tweets" = false ∧
    (dataVisualizationRun "sales" "bar" "weekly" none).hasKey "videos" = false := by
  exact ⟨rfl, rfl, rfl, rfl, rfl⟩

/-- C3 (amended): for the three search tools the invariant does hold: on
every path — success and every failure handler alike — the serialized
output is a JSON object with a `query` field, a `total_results` field and
the items field (`tweets` or `videos`), with `error` present exactly on
the failure paths.  The mock tools do not follow the envelope:
`DataVisualizationTool` returns JSON without those fields, and
`MarketingAnalysisTool` and `GetSecretWordTool` return plain text that is
not `json.dumps` output at all. -/
theorem claim3_amended_search_tool_envelope (qT qL qY : String) (mT mL mY : Int)
    (thrT thrL thrY : Option Int) (bT bL kY : Option String)
    (netT : TwitterNet) (netL : LiteNet) (netY : YtNet) (now : String) :
    ((twitterRun qT mT thrT bT netT now).1.toJson.hasKey "query" = true ∧
     (twitterRun qT mT thrT bT netT now).1.toJson.hasKey "total_results" = true ∧
     (twitterRun qT mT thrT bT netT now).1.toJson.hasKey "tweets" = true) ∧
    ((liteRun qL mL thrL bL netL now).1.toJson.hasKey "query" = true ∧
     (liteRun qL mL thrL bL netL now).1.toJson.hasKey "total_results" = true ∧
     (liteRun qL mL thrL bL netL now).1.toJson.hasKey "tweets" = true) ∧
    ((ytRun qY mY thrY kY netY now).1.toJson.hasKey "query" = true ∧
     (ytRun qY mY thrY kY netY now).1.toJson.hasKey "total_results" = true ∧
     (ytRun qY mY thrY kY netY now).1.toJson.hasKey "videos" = true) :=
  ⟨twitterEnvelope_keys _, liteEnvelope_keys _, ytEnvelope_keys _⟩

/-- C4: a query consisting only of whitespace makes each of the three
search tools return an error envelope with `total_results = 0` and an
empty item list, and the network-stage flag stays `false`: the validation
error is raised (Twitter tools) or returned (YouTube tool) before any
external request. -/
theorem claim4_whitespace_query_error_envelope (q : String) (mT mL mY : Int)
    (thrT thrL thrY : Option Int) (bT bL kY : Option String)
    (netT : TwitterNet) (netL : LiteNet) (netY : YtNet) (now : String)
    (hq : pyStrip q = "") :
    twitterRun q mT thrT bT netT now =
      (TwitterResult.errGeneric q "An error occurred: topic_or_keywords cannot be empty"
        now thrT (enhanceQuery q), false) ∧
    ((twitterRun q mT thrT bT netT now).1.toJson.hasKey "error" = true ∧
     (twitterRun q mT thrT bT netT now).1.toJson.getKey "total_results" =
       some (Json.jnum 0) ∧
     (twitterRun q mT thrT bT netT now).1.toJson.getKey "tweets" =
       some (Json.jarr [])) ∧
    liteRun q mL thrL bL netL now =
      (LiteResult.errGeneric q "Unexpected error: Topic or keywords cannot be empty", false) ∧
    ((liteRun q mL thrL bL netL now).1.toJson.hasKey "error" = true ∧
     (liteRun q mL thrL bL netL now).1.toJson.getKey "total_results" =
       some (Json.jnum 0) ∧
     (liteRun q mL thrL bL netL now).1.toJson.getKey "tweets" =
       some (Json.jarr [])) ∧
    ytRun q mY thrY kY netY now = (YtResult.errEmptyQuery q, false) ∧
    ((ytRun q mY thrY kY netY now).1.toJson.hasKey "error" = true ∧
     (ytRun q mY thrY kY netY now).1.toJson.getKey "total_results" =
       some (Json.jnum 0) ∧
     (ytRun q mY thrY kY netY now).1.toJson.getKey "videos" =
       some (Json.jarr [])) := by
  have hvT : twitterValidate q mT thrT = some "topic_or_keywords cannot be empty" := by
    simp [twitterValidate, hq]
  have hvL : liteValidate q mL = some "Topic or keywords cannot be empty" := by
    simp [liteValidate, hq]
  have h1 : twitterRun q mT thrT bT netT now =
      (TwitterResult.errGeneric q "An error occurred: topic_or_keywords cannot be empty"
        now thrT (enhanceQuery q), false) := by
    simp [twitterRun, hvT]
  have h2 : liteRun q mL thrL bL netL now =
      (LiteResult.errGeneric q "Unexpected error: Topic or keywords cannot be empty",
        false) := by
    simp [liteRun, hvL]
  have h3 : ytRun q mY thrY kY netY now = (YtResult.errEmptyQuery q, false) := by
    simp [ytRun, hq]
  refine ⟨h1, ?_, h2, ?_, h3, ?_⟩
  · rw [h1]
    exact ⟨rfl, rfl, rfl⟩
  · rw [h2]
    exact ⟨rfl, rfl, rfl⟩
  · rw [h3]
    exact ⟨rfl, rfl, rfl⟩

/-- Witness for C4 at the whitespace query `"   "`. -/
theorem claim4_whitespace_query_error_envelope_witness :
    twitterRun "   " 50 none (some "tok") (TwitterNet.resp []) "t0" =
      (TwitterResult.errGeneric "   "
        "An error occurred: topic_or_keywords cannot be empty" "t0" none
        (enhanceQuery "   "), false) ∧
    liteRun "   " 10 none (some "tok") (LiteNet.resp []) "t0" =
      (LiteResult.errGeneric "   "
        "Unexpected error: Topic or keywords cannot be empty", false) ∧
    ytRun "   " 25 none (some "key") (YtNet.ok [] []) "t0" =
      (YtResult.errEmptyQuery "   ", false) := by
  have h := claim4_whitespace_query_error_envelope "   " 50 10 25 none none none
    (some "tok") (some "tok") (some "key") (TwitterNet.resp []) (LiteNet.resp [])
    (YtNet.ok [] []) "t0" (by decide)
  exact ⟨h.1, h.2.2.1, h.2.2.2.2.1⟩

/-- C5: with the inputs passing validation and the relevant credential
environment variable unset, each search tool returns — without raising
and with the network-stage flag still `false` — a JSON error envelope
whose `error` text names the missing variable and how to set it, with
`total_results = 0` and an empty item list. -/
theorem claim5_missing_credentials_error_envelope (qT qL qY : String)
    (mT mL mY : Int) (thrT thrL thrY : Option Int)
    (netT : TwitterNet) (netL : LiteNet) (netY : YtNet) (now : String)
    (hvT : twitterValidate qT mT thrT = none)
    (hvL : liteValidate qL mL = none)
    (hqY : ¬ pyStrip qY = "") :
    twitterRun qT mT thrT none netT now = (TwitterResult.errNoToken qT, false) ∧
    ((twitterRun qT mT thrT none netT now).1.toJson.getKey "error" =
       some (Json.jstr "Twitter Bearer Token not found. Please set TWITTER_BEARER_TOKEN in your .env file.") ∧
     (twitterRun qT mT thrT none netT now).1.toJson.getKey "total_results" =
       some (Json.jnum 0) ∧
     (twitterRun qT mT thrT none netT now).1.toJson.getKey "tweets" =
       some (Json.jarr [])) ∧
    liteRun qL mL thrL none netL now = (LiteResult.errNoToken qL, false) ∧
    ((liteRun qL mL thrL none netL now).1.toJson.getKey "error" =
       some (Json.jstr "Twitter Bearer Token not found. Please set TWITTER_BEARER_TOKEN in your .env file.") ∧
     (liteRun qL mL thrL none netL now).1.toJson.getKey "total_results" =
       some (Json.jnum 0) ∧
     (liteRun qL mL thrL none netL now).1.toJson.getKey "tweets" =
       some (Json.jarr [])) ∧
    ytRun qY mY thrY none netY now = (YtResult.errNoKey qY, false) ∧
    ((ytRun qY mY thrY none netY now).1.toJson.getKey "error" =
       some (Json.jstr "YouTube API key not found in environment variables. Please set YOUTUBE_API_KEY.") ∧
     (ytRun qY mY thrY none netY now).1.toJson.getKey "total_results" =
       some (Json.jnum 0) ∧
     (ytRun qY mY thrY none netY now).1.toJson.getKey "videos" =
       some (Json.jarr [])) := by
  have h1 : twitterRun qT mT thrT none netT now =
      (TwitterResult.errNoToken qT, false) := by
    simp [twitterRun, hvT]
  have h2 : liteRun qL mL thrL none netL now = (LiteResult.errNoToken qL, false) := by
    simp [liteRun, hvL]
  have h3 : ytRun qY mY thrY none netY now = (YtResult.errNoKey qY, false) := by
    simp [ytRun, hqY]
  refine ⟨h1, ?_, h2, ?_, h3, ?_⟩
  · rw [h1]
    exact ⟨rfl, rfl, rfl⟩
  · rw [h2]
    exact ⟨rfl, rfl, rfl⟩
  · rw [h3]
    exact ⟨rfl, rfl, rfl⟩

/-- Witness for C5 at the query `"ai"` with valid result counts and no
credentials in the environment. -/
theorem claim5_missing_credentials_error_envelope_witness :
    twitterRun "ai" 50 none none (TwitterNet.resp []) "t0" =
      (TwitterResult.errNoToken "ai", false) ∧
    liteRun "ai" 10 none none (LiteNet.resp []) "t0" =
      (LiteResult.errNoToken "ai", false) ∧
    ytRun "ai" 25 none none (YtNet.ok [] []) "t0" =
      (YtResult.errNoKey "ai", false) := by
  have h := claim5_missing_credentials_error_envelope "ai" "ai" "ai" 50 10 25
    none none none (TwitterNet.resp []) (LiteNet.resp []) (YtNet.ok [] []) "t0"
    (by decide) (by decide) (by decide)
  exact ⟨h.1, h.2.2.1, h.2.2.2.2.1⟩

theorem strTake_length_le (s : String) (n : Nat) : (strTake s n).length ≤ n := by
  have h : (strTake s n).length = (s.toList.take n).length := rfl
  rw [h, List.length_take]
  exact min_le_left n s.toList.length

/-- Counterexample to C6: the query `"ai lang:es"` already carries the
advanced operator `lang:` (the very operator test the lite tool uses),
yet `TwitterSearchTool._enhance_query` still augments it with the default
filters — the full tool performs no conflicting-operator check at all. -/
theorem claim6_counterexample_operator_query_still_augmented :
    liteHasOperator "ai lang:es" = true ∧
    enhanceQuery "ai lang:es" = "ai lang:es lang:en -is:retweet" ∧
    enhanceQuery "ai lang:es" ≠ "ai lang:es" := by
  refine ⟨by decide, by decide, by decide⟩


/-- C6 (amended): `TwitterSearchTool` augments every query
unconditionally — no operator check — with ` lang:en -is:retweet`,
falling back to ` lang:en` alone and then to the raw query whenever the
longer form would exceed 512 characters, so the result never exceeds 512
characters when the input respects the validated 512 limit.
`TwitterSearchLiteTool` is the tool with the operator check: it strips
and truncates the query to 80 characters and appends ` lang:en` only when
none of `lang:`, `-is:`, `from:`, `to:` already occurs; it needs no
length fallback because its result is bounded by 88 characters. -/
theorem claim6_amended_query_shaping (qA qB qC qD qE qF qG : String) :
    (qA.length ≤ 492 → enhanceQuery qA = qA ++ " lang:en -is:retweet") ∧
    (493 ≤ qB.length → qB.length ≤ 504 → enhanceQuery qB = qB ++ " lang:en") ∧
    (505 ≤ qC.length → enhanceQuery qC = qC) ∧
    (qD.length ≤ 512 → (enhanceQuery qD).length ≤ 512) ∧
    (liteHasOperator (strTake (pyStrip qE) 80) = false →
      createLiteQuery qE = strTake (pyStrip qE) 80 ++ " lang:en") ∧
    (liteHasOperator (strTake (pyStrip qF) 80) = true →
      createLiteQuery qF = strTake (pyStrip qF) 80) ∧
    (createLiteQuery qG).length ≤ 88 := by
  have hlen20 : (" lang:en -is:retweet" : String).length = 20 := rfl
  have hlen8 : (" lang:en" : String).length = 8 := rfl
  refine ⟨?_, ?_, ?_, ?_, ?_, ?_, ?_⟩
  · intro h
    have hlt : ¬ (qA ++ " lang:en -is:retweet").length > 512 := by
      rw [String.length_append, hlen20]
      omega
    simp only [enhanceQuery, if_neg hlt]
  · intro h1 h2
    have ha : (qB ++ " lang:en -is:retweet").length > 512 := by
      rw [String.length_append, hlen20]
      omega
    have hb : ¬ (qB ++ " lang:en").length > 512 := by
      rw [String.length_append, hlen8]
      omega
    simp only [enhanceQuery, if_pos ha, if_neg hb]
  · intro h
    have ha : (qC ++ " lang:en -is:retweet").length > 512 := by
      rw [String.length_append, hlen20]
      omega
    have hb : (qC ++ " lang:en").length > 512 := by
      rw [String.length_append, hlen8]
      omega
    simp only [enhanceQuery, if_pos ha, if_pos hb]
  · intro h
    by_cases h1 : (qD ++ " lang:en -is:retweet").length > 512
    · by_cases h2 : (qD ++ " lang:en").length > 512
      · simp only [enhanceQuery, if_pos h1, if_pos h2]
        exact h
      · simp only [enhanceQuery, if_pos h1, if_neg h2]
        omega
    · simp only [enhanceQuery, if_neg h1]
      omega
  · intro h
    simp only [createLiteQuery, h]
    simp
  · intro h
    simp only [createLiteQuery, h]
    simp
  · have hq : (strTake (pyStrip qG) 80).length ≤ 80 := strTake_length_le _ 80
    simp only [createLiteQuery]
    by_cases h : liteHasOperator (strTake (pyStrip qG) 80) = true
    · simp only [h]
      simp
      omega
    · have h0 : liteHasOperator (strTake (pyStrip qG) 80) = false := by
        simpa using h
      simp only [h0]
      simp
      omega

set_option maxRecDepth 4000 in
/-- Witness for C6 (amended): a short query gains both filters; a
501-character query falls back to the language filter alone; a
600-character query is left unchanged; the lite tool appends the filter
to `"ai news"` but leaves `"from:nasa ai"` alone. -/
theorem claim6_amended_query_shaping_witness :
    enhanceQuery "ai" = "ai lang:en -is:retweet" ∧
    enhanceQuery (String.mk (List.replicate 501 'a')) =
      String.mk (List.replicate 501 'a') ++ " lang:en" ∧
    enhanceQuery (String.mk (List.replicate 600 'a')) =
      String.mk (List.replicate 600 'a') ∧
    (enhanceQuery "ai").length ≤ 512 ∧
    createLiteQuery "ai news" = strTake (pyStrip "ai news") 80 ++ " lang:en" ∧
    createLiteQuery "from:nasa ai" = strTake (pyStrip "from:nasa ai") 80 ∧
    (createLiteQuery "ai news").length ≤ 88 := by
  have h := claim6_amended_query_shaping "ai" (String.mk (List.replicate 501 'a'))
    (String.mk (List.replicate 600 'a')) "ai" "ai news" "from:nasa ai" "ai news"
  exact ⟨h.1 (by decide), h.2.1 (by decide) (by decide), h.2.2.1 (by decide),
    h.2.2.2.1 (by decide), h.2.2.2.2.1 (by decide), h.2.2.2.2.2.1 (by decide),
    h.2.2.2.2.2.2⟩

theorem final_list_facts {α : Type} (key : α → Nat) (t : Int) (l : List α) (n : Nat) :
    (∀ x ∈ (applyThreshold key (some t) (sortDescBy key l)).take n, t ≤ (key x : Int)) ∧
    ((applyThreshold key (some t) (sortDescBy key l)).take n).Pairwise
      (fun a b => key b ≤ key a) := by
  constructor
  · intro x hx
    exact mem_applyThreshold_le key t (List.take_subset n _ hx)
  · exact pairwise_take n (pairwise_applyThreshold key _ (sortDescBy_sorted key l))

theorem final_list_facts_notake {α : Type} (key : α → Nat) (t : Int) (l : List α) :
    (∀ x ∈ applyThreshold key (some t) (sortDescBy key l), t ≤ (key x : Int)) ∧
    (applyThreshold key (some t) (sortDescBy key l)).Pairwise
      (fun a b => key b ≤ key a) := by
  constructor
  · intro x hx
    exact mem_applyThreshold_le key t hx
  · exact pairwise_applyThreshold key _ (sortDescBy_sorted key l)

theorem yt_final_facts (t : Int) (videos : List ProcessedVideo) (n : Nat) :
    (∀ v ∈ (sortAndFilterVideos (some t) videos).take n,
      t ≤ (v.total_engagement : Int)) ∧
    ((sortAndFilterVideos (some t) videos).take n).Pairwise
      (fun a b => b.total_engagement ≤ a.total_engagement) := by
  constructor
  · intro v hv
    have h1 := List.take_subset n _ hv
    simp only [sortAndFilterVideos] at h1
    have h2 := mem_sortDescBy.mp h1
    simp only [List.mem_filter, decide_eq_true_eq] at h2
    exact h2.2
  · refine pairwise_take n ?_
    simp only [sortAndFilterVideos]
    exact sortDescBy_sorted _ _

/-- C1: for every invocation of a search tool with a given
`min_engagement_threshold`, every item of the returned list has a derived
`total_engagement` at least the threshold, and the returned list is
sorted by that score in descending order (on every error path the list is
empty and both facts hold trivially).  For the Twitter tools a `0`
threshold skips the filter step, but every engagement score is a
nonnegative sum of counters, so the bound still holds. -/
theorem claim1_threshold_filter_and_descending_sort
    (qT : String) (mT : Int) (tT : Int) (bT : Option String) (netT : TwitterNet)
    (qL : String) (mL : Int) (tL : Int) (bL : Option String) (netL : LiteNet)
    (qY : String) (mY : Int) (tY : Int) (kY : Option String) (netY : YtNet)
    (now : String) :
    ((∀ tw ∈ (twitterRun qT mT (some tT) bT netT now).1.tweets,
        tT ≤ (tw.total_engagement : Int)) ∧
      ((twitterRun qT mT (some tT) bT netT now).1.tweets).Pairwise
        (fun a b => b.total_engagement ≤ a.total_engagement)) ∧
    ((∀ tw ∈ (liteRun qL mL (some tL) bL netL now).1.tweets,
        tL ≤ (tw.total_engagement : Int)) ∧
      ((liteRun qL mL (some tL) bL netL now).1.tweets).Pairwise
        (fun a b => b.total_engagement ≤ a.total_engagement)) ∧
    ((∀ v ∈ (ytRun qY mY (some tY) kY netY now).1.videos,
        tY ≤ (v.total_engagement : Int)) ∧
      ((ytRun qY mY (some tY) kY netY now).1.videos).Pairwise
        (fun a b => b.total_engagement ≤ a.total_engagement)) := by
  refine ⟨?_, ?_, ?_⟩
  · cases hv : twitterValidate qT mT (some tT) with
    | some msg => simp [twitterRun, hv, TwitterResult.tweets]
    | none =>
      cases bT with
      | none => simp [twitterRun, hv, TwitterResult.tweets]
      | some tok =>
        cases netT with
        | resp raw =>
          have hfacts := final_list_facts (fun tw : ProcessedTweet => tw.total_engagement)
            tT (raw.map processOneTweet) mT.toNat
          simp only [twitterRun, hv, TwitterResult.tweets, processTweets]
          exact hfacts
        | tooMany info => simp [twitterRun, hv, TwitterResult.tweets]
        | unauthorized => simp [twitterRun, hv, TwitterResult.tweets]
        | exn msg => simp [twitterRun, hv, TwitterResult.tweets]
  · cases hv : liteValidate qL mL with
    | some msg => simp [liteRun, hv, LiteResult.tweets]
    | none =>
      cases bL with
      | none => simp [liteRun, hv, LiteResult.tweets]
      | some tok =>
        cases netL with
        | resp raw =>
          have hfacts := final_list_facts_notake (fun tw : LiteTweet => tw.total_engagement)
            tL (raw.map processOneLite)
          simp only [liteRun, hv, LiteResult.tweets, processTweetsLite]
          exact hfacts
        | tooMany => simp [liteRun, hv, LiteResult.tweets]
        | unauthorized => simp [liteRun, hv, LiteResult.tweets]
        | exn msg => simp [liteRun, hv, LiteResult.tweets]
  · by_cases hq : pyStrip qY = ""
    · simp [ytRun, hq, YtResult.videos]
    · cases kY with
      | none => simp [ytRun, hq, YtResult.videos]
      | some key =>
        cases netY with
        | ok ids items =>
          by_cases hids : ids.isEmpty
          · simp [ytRun, hq, hids, YtResult.videos]
          · have hfacts := yt_final_facts tY (items.filterMap processVideo) mY.toNat
            simp only [ytRun, hq, hids, if_neg, YtResult.videos]
            simp only [if_neg hq, Bool.false_eq_true, if_false]
            exact hfacts
        | httpError msg => simp [ytRun, hq, YtResult.videos]
        | exn msg => simp [ytRun, hq, YtResult.videos]

theorem length_processTweetsLite (raw : List RawTweetLite) :
    (processTweetsLite raw).length = raw.length := by
  simp only [processTweetsLite]
  rw [length_sortDescBy, List.length_map]

/-- C2: the number of returned items never exceeds the requested
`max_results` — for `TwitterSearchTool` and `YouTubeSearchTool` through
the final `[:max_results]` truncation, and for `TwitterSearchLiteTool`
because the provider request is capped at `min(100, max_results)` and the
response (hypothesis `hrawL`) therefore holds at most `max_results`
items, which filtering can only shrink.  And for both Twitter/X-style
tools, a `max_results` outside the documented range (10-100, resp.
10-25) fails validation and yields an error result with the
network-stage flag still `false`. -/
theorem claim2_result_count_bound_and_range_validation
    (qT : String) (mT : Int) (thrT : Option Int) (bT : Option String) (netT : TwitterNet)
    (qL : String) (mL : Int) (thrL : Option Int) (bL : Option String) (rawL : List RawTweetLite)
    (qY : String) (mY : Int) (thrY : Option Int) (kY : Option String) (netY : YtNet)
    (q2 : String) (m2 : Int) (thr2 : Option Int) (b2 : Option String) (net2 : TwitterNet)
    (q3 : String) (m3 : Int) (thr3 : Option Int) (b3 : Option String) (net3 : LiteNet)
    (now : String)
    (hmT : 10 ≤ mT) (hmL : 10 ≤ mL) (hrawL : (rawL.length : Int) ≤ mL) (hmY : 10 ≤ mY)
    (hm2 : ¬ (10 ≤ m2 ∧ m2 ≤ 100)) (hm3 : ¬ (10 ≤ m3 ∧ m3 ≤ 25)) :
    (((twitterRun qT mT thrT bT netT now).1.tweets.length : Int) ≤ mT) ∧
    (((liteRun qL mL thrL bL (LiteNet.resp rawL) now).1.tweets.length : Int) ≤ mL) ∧
    (((ytRun qY mY thrY kY netY now).1.videos.length : Int) ≤ mY) ∧
    ((twitterRun q2 m2 thr2 b2 net2 now).2 = false ∧
      ∃ msg, twitterValidate q2 m2 thr2 = some msg ∧
        twitterRun q2 m2 thr2 b2 net2 now =
          (TwitterResult.errGeneric q2 ("An error occurred: " ++ msg) now thr2
            (enhanceQuery q2), false)) ∧
    ((liteRun q3 m3 thr3 b3 net3 now).2 = false ∧
      ∃ msg, liteValidate q3 m3 = some msg ∧
        liteRun q3 m3 thr3 b3 net3 now =
          (LiteResult.errGeneric q3 ("Unexpected error: " ++ msg), false)) := by
  have hval2 : ∃ msg, twitterValidate q2 m2 thr2 = some msg := by
    by_cases h1 : pyStrip q2 = ""
    · exact ⟨"topic_or_keywords cannot be empty", by simp [twitterValidate, h1]⟩
    · by_cases h2 : q2.length > 512
      · exact ⟨"topic_or_keywords must be under 512 characters for Basic API access",
          by simp [twitterValidate, h1, h2]⟩
      · exact ⟨"max_results must be between 10 and 100",
          by simp [twitterValidate, h1, h2, hm2]⟩
  have hval3 : ∃ msg, liteValidate q3 m3 = some msg := by
    by_cases h1 : pyStrip q3 = ""
    · exact ⟨"Topic or keywords cannot be empty", by simp [liteValidate, h1]⟩
    · have hm3a : m3 < 10 ∨ m3 > 25 := by omega
      exact ⟨"max_results must be between 10 and 25 for lite version (API minimum is 10)",
        by simp [liteValidate, h1, hm3a]⟩
  refine ⟨?_, ?_, ?_, ?_, ?_⟩
  · cases hv : twitterValidate qT mT thrT with
    | some msg =>
      simp [twitterRun, hv, TwitterResult.tweets]
      omega
    | none =>
      cases bT with
      | none =>
        simp [twitterRun, hv, TwitterResult.tweets]
        omega
      | some tok =>
        cases netT with
        | resp raw =>
          simp only [twitterRun, hv, TwitterResult.tweets, List.length_take]
          omega
        | tooMany info =>
          simp [twitterRun, hv, TwitterResult.tweets]
          omega
        | unauthorized =>
          simp [twitterRun, hv, TwitterResult.tweets]
          omega
        | exn msg =>
          simp [twitterRun, hv, TwitterResult.tweets]
          omega
  · cases hv : liteValidate qL mL with
    | some msg =>
      simp [liteRun, hv, LiteResult.tweets]
      omega
    | none =>
      cases bL with
      | none =>
        simp [liteRun, hv, LiteResult.tweets]
        omega
      | some tok =>
        have hle : ((liteRun qL mL thrL (some tok) (LiteNet.resp rawL) now).1.tweets).length
            ≤ rawL.length := by
          simp only [liteRun, hv, LiteResult.tweets]
          calc (applyThreshold (fun t => t.total_engagement) thrL
                  (processTweetsLite rawL)).length
              ≤ (processTweetsLite rawL).length :=
                length_applyThreshold_le _ thrL _
            _ = rawL.length := length_processTweetsLite rawL
        omega
  · by_cases hq : pyStrip qY = ""
    · simp [ytRun, hq, YtResult.videos]
      omega
    · cases kY with
      | none =>
        simp [ytRun, hq, YtResult.videos]
        omega
      | some key =>
        cases netY with
        | ok ids items =>
          by_cases hids : ids.isEmpty
          · simp [ytRun, hq, hids, YtResult.videos]
            omega
          · simp only [ytRun, if_neg hq, hids, Bool.false_eq_true, if_false,
              YtResult.videos, List.length_take]
            omega
        | httpError msg =>
          simp [ytRun, hq, YtResult.videos]
          omega
        | exn msg =>
          simp [ytRun, hq, YtResult.videos]
          omega
  · obtain ⟨msg, hmsg⟩ := hval2
    refine ⟨?_, msg, hmsg, ?_⟩ <;> simp [twitterRun, hmsg]
  · obtain ⟨msg, hmsg⟩ := hval3
    refine ⟨?_, msg, hmsg, ?_⟩ <;> simp [liteRun, hmsg]

/-- Witness for C2: valid invocations with concrete inputs stay within
the bound, and out-of-range result counts (200 for the full tool, 5 for
the lite tool) fail validation without reaching the network stage. -/
theorem claim2_result_count_bound_and_range_validation_witness :
    (((twitterRun "ai" 50 none (some "tok") (TwitterNet.resp []) "t0").1.tweets.length : Int)
        ≤ 50) ∧
    (((liteRun "ai" 10 none (some "tok") (LiteNet.resp []) "t0").1.tweets.length : Int)
        ≤ 10) ∧
    (((ytRun "ai" 25 none (some "key") (YtNet.ok [] []) "t0").1.videos.length : Int)
        ≤ 25) ∧
    (twitterRun "ai" 200 none (some "tok") (TwitterNet.resp []) "t0").2 = false ∧
    (liteRun "ai" 5 none (some "tok") (LiteNet.resp []) "t0").2 = false := by
  have h := claim2_result_count_bound_and_range_validation
    "ai" 50 none (some "tok") (TwitterNet.resp [])
    "ai" 10 none (some "tok") []
    "ai" 25 none (some "key") (YtNet.ok [] [])
    "ai" 200 none (some "tok") (TwitterNet.resp [])
    "ai" 5 none (some "tok") (LiteNet.resp [])
    "t0" (by decide) (by decide) (by decide) (by decide) (by decide) (by decide)
  exact ⟨h.1, h.2.1, h.2.2.1, h.2.2.2.1.1, h.2.2.2.2.1⟩
